import Mathlib

/-!
Verification development for the PropTech school-research repository.

The Python sources (`src/data_loader.py`, `src/models_v2.py`,
`src/config_v2.py`, `src/streamlit_app_v2.py`, `src/Chains/OfstedChains.py`)
are shallowly embedded below: CSV rows become association lists of strings,
Python `float` values become an explicit type (finite rationals, signed
infinity, NaN), fallible Python code returns `Except PyErr`, and network /
regex-engine effects are supplied as explicit oracle parameters.
-/

namespace PropTech

set_option maxRecDepth 4000

/-- Python exception classes relevant to the embedded code paths. -/
inductive PyErr where
  | valueError
  | typeError
  | overflowError
deriving DecidableEq, Repr

instance {ε α : Type} [DecidableEq ε] [DecidableEq α] : DecidableEq (Except ε α) :=
  fun a b =>
    match a, b with
    | .ok x, .ok y =>
      if h : x = y then .isTrue (congrArg Except.ok h)
      else .isFalse (fun hc => h (Except.ok.inj hc))
    | .error x, .error y =>
      if h : x = y then .isTrue (congrArg Except.error h)
      else .isFalse (fun hc => h (Except.error.inj hc))
    | .ok _, .error _ => .isFalse (fun hc => Except.noConfusion hc)
    | .error _, .ok _ => .isFalse (fun hc => Except.noConfusion hc)

/-- The value space of Python `float`: a finite rational (we only ever need
exactly-representable values), a signed infinity, or NaN. -/
inductive PyFloat where
  | finite (q : ℚ)
  | inf (neg : Bool)
  | nan
deriving DecidableEq, Repr

/-- Characters stripped by Python `str.strip()` (ASCII whitespace). -/
def isPyWs (c : Char) : Bool :=
  c == ' ' || c == '\t' || c == '\n' || c == '\x0d' || c == '\x0b' || c == '\x0c'

/-- `str.strip()` on a character list: drop leading and trailing whitespace. -/
def pyStripL (l : List Char) : List Char :=
  ((l.dropWhile isPyWs).reverse.dropWhile isPyWs).reverse

/-- Python `str.strip()`. -/
def pyStrip (s : String) : String := ⟨pyStripL s.data⟩

/-- Python `str.lower()` (ASCII case fold suffices for the embedded code). -/
def pyLower (s : String) : String := ⟨s.data.map Char.toLower⟩

/-- Python slicing `s[a:b]` by character index. -/
def pySlice (s : String) (a b : Nat) : String := ⟨(s.data.drop a).take (b - a)⟩

/-- Value of a digit string, most significant digit first. -/
def digitsToNat (l : List Char) : Nat :=
  l.foldl (fun a c => 10 * a + (c.toNat - 48)) 0

/-- Exponent part of a float literal: optional sign then digits, to the end. -/
def parseExp (cs : List Char) : Option Int :=
  match cs with
  | '+' :: r => if r ≠ [] ∧ r.all Char.isDigit then some (digitsToNat r) else none
  | '-' :: r => if r ≠ [] ∧ r.all Char.isDigit then some (-(digitsToNat r : Int)) else none
  | r => if r ≠ [] ∧ r.all Char.isDigit then some (digitsToNat r) else none

/-- The value `(ipart + fpart/10^fLen) · 10^e` as one normalised rational
(kept as a single `mkRat` over integer arithmetic so closed terms reduce in
the kernel). -/
def sciRat (ipart fpart fLen : Nat) (e : Int) : ℚ :=
  mkRat ((ipart * 10 ^ fLen + fpart) * 10 ^ e.toNat) (10 ^ fLen * 10 ^ (-e).toNat)

/-- Mantissa (and optional exponent) of a Python float literal. -/
def parseMantissa (cs : List Char) : Option ℚ :=
  let ip := cs.takeWhile Char.isDigit
  let r1 := cs.dropWhile Char.isDigit
  match r1 with
  | [] => if ip = [] then none else some (sciRat (digitsToNat ip) 0 0 0)
  | '.' :: r2 =>
    let fp := r2.takeWhile Char.isDigit
    let r3 := r2.dropWhile Char.isDigit
    if ip = [] ∧ fp = [] then none
    else
      match r3 with
      | [] => some (sciRat (digitsToNat ip) (digitsToNat fp) fp.length 0)
      | 'e' :: r4 =>
        (parseExp r4).map (fun e => sciRat (digitsToNat ip) (digitsToNat fp) fp.length e)
      | 'E' :: r4 =>
        (parseExp r4).map (fun e => sciRat (digitsToNat ip) (digitsToNat fp) fp.length e)
      | _ => none
  | 'e' :: r4 =>
    if ip = [] then none
    else (parseExp r4).map (fun e => sciRat (digitsToNat ip) 0 0 e)
  | 'E' :: r4 =>
    if ip = [] then none
    else (parseExp r4).map (fun e => sciRat (digitsToNat ip) 0 0 e)
  | _ => none

/-- Body of Python `float(str)` after the optional sign: the keywords
inf/infinity/nan (case-insensitive) or a numeric literal. -/
def pyFloatNoSign (neg : Bool) (rest : List Char) : Option PyFloat :=
  let low := rest.map Char.toLower
  if low = "inf".data ∨ low = "infinity".data then some (.inf neg)
  else if low = "nan".data then some .nan
  else
    match parseMantissa rest with
    | some q => some (.finite (if neg then -q else q))
    | none => none

/-- Core of Python `float(str)` after whitespace stripping: optional sign,
then keyword or numeric literal.  (Digit-group underscores are not
modelled.) -/
def pyFloatCore (cs : List Char) : Option PyFloat :=
  match cs with
  | [] => pyFloatNoSign false []
  | c :: r =>
    if c = '+' then pyFloatNoSign false r
    else if c = '-' then pyFloatNoSign true r
    else pyFloatNoSign false (c :: r)

/-- Python `float(s)` for a string argument: `some` a float value, or `none`
for the `ValueError` case. -/
def pyFloatOfString (s : String) : Option PyFloat := pyFloatCore (pyStripL s.data)

/-- Truncation toward zero, as Python `int(float)` on a finite float
(T-division of the reduced numerator by the denominator). -/
def ratTrunc (q : ℚ) : Int := q.num.tdiv (q.den : Int)

/-- Python `int(f)` on a float: truncates finite values, raises `ValueError`
on NaN and `OverflowError` on infinities. -/
def pyIntOfFloat (f : PyFloat) : Except PyErr Int :=
  match f with
  | .finite q => .ok (ratTrunc q)
  | .inf _ => .error .overflowError
  | .nan => .error .valueError

/-- The ten decimal digit characters. -/
def digitChars : List Char := ['0', '1', '2', '3', '4', '5', '6', '7', '8', '9']

/-- Decimal digit character for `d < 10`. -/
def digitChar (d : Nat) : Char :=
  if d = 0 then '0' else if d = 1 then '1' else if d = 2 then '2' else if d = 3 then '3'
  else if d = 4 then '4' else if d = 5 then '5' else if d = 6 then '6' else if d = 7 then '7'
  else if d = 8 then '8' else '9'

/-- Fuel-driven digit expansion (structural recursion so that closed terms
reduce definitionally; `natDigits` supplies sufficient fuel). -/
def natDigitsAux : Nat → Nat → List Char
  | 0, _ => []
  | fuel + 1, n =>
    if n < 10 then [digitChar n]
    else natDigitsAux fuel (n / 10) ++ [digitChar (n % 10)]

/-- Decimal digit characters of `n`, most significant first (`str` of a Nat). -/
def natDigits (n : Nat) : List Char := natDigitsAux (n + 1) n

/-- Python `str(i)` for an int: canonical decimal form. -/
def pyStrOfInt (i : Int) : String :=
  if i < 0 then ⟨'-' :: natDigits i.natAbs⟩ else ⟨natDigits i.natAbs⟩

/-- Truthiness of an optional string (Python: `None` and `""` are falsy). -/
def pyTruthy (o : Option String) : Bool :=
  match o with
  | none => false
  | some s => s ≠ ""

/-- Python `a or b` on optional strings. -/
def pyOr (a b : Option String) : Option String := if pyTruthy a then a else b

/-! ## `src/data_loader.py`: row access and the normalizer functions -/

/-- A CSV row as read by `csv.DictReader`: an association list from column
name to cell string.  Python dicts have unique keys; lookup takes the first
binding. -/
def Row := List (String × String)

instance : DecidableEq Row := inferInstanceAs (DecidableEq (List (String × String)))

/-- Python `row.get(k)`: `None` when the key is absent. -/
def rowGet (r : Row) (k : String) : Option String :=
  match r.find? (fun p => p.1 = k) with
  | some p => some p.2
  | none => none

/-- Python `row.get(k, d)` with a string default. -/
def rowGetD (r : Row) (k : String) (d : String) : String := (rowGet r k).getD d

/-- `DataLoader._clean_urn`: `None`/empty/"nan"(any case) map to `None`;
otherwise `str(int(float(urn)))`, falling back to `str(urn).strip()` when the
conversion raises `ValueError`/`TypeError`.  `int(float(u))` on an infinite
value raises `OverflowError`, which the source does not catch. -/
def cleanUrn (urn : Option String) : Except PyErr (Option String) :=
  match urn with
  | none => .ok none
  | some s =>
    if s = "" ∨ pyLower s = "nan" then .ok none
    else
      match pyFloatOfString s with
      | none => .ok (some (pyStrip s))
      | some f =>
        match pyIntOfFloat f with
        | .ok i => .ok (some (pyStrOfInt i))
        | .error .overflowError => .error .overflowError
        | .error _ => .ok (some (pyStrip s))

/-- `DataLoader._safe_float`: `None`/empty/"nan"(any case) map to `None`;
otherwise `float(value)`, with `ValueError`/`TypeError` caught to `None`.
For a string argument `float` raises only `ValueError`, so this is total. -/
def pySafeFloat (value : Option String) : Option PyFloat :=
  match value with
  | none => none
  | some s =>
    if s = "" ∨ pyLower s = "nan" then none
    else pyFloatOfString s

/-- `DataLoader._safe_int`: `None`/empty/"nan"/"x"/"z"/"c"(any case) map to
`None`; otherwise `int(float(value))` with `ValueError`/`TypeError` caught to
`None` — but `OverflowError` from an infinite float is not caught. -/
def pySafeInt (value : Option String) : Except PyErr (Option Int) :=
  match value with
  | none => .ok none
  | some s =>
    if s = "" ∨ pyLower s = "nan" ∨ pyLower s = "x" ∨ pyLower s = "z" ∨ pyLower s = "c" then
      .ok none
    else
      match pyFloatOfString s with
      | none => .ok none
      | some f =>
        match pyIntOfFloat f with
        | .ok i => .ok (some i)
        | .error .overflowError => .error .overflowError
        | .error _ => .ok none

/-- `DataLoader._get_value`: first key whose value is non-`None`, non-empty
and not "nan" (any case) wins, returned stripped; else `None`.  The row is
abstracted to its `get` function so the same definition serves plain rows
and the merged dict. -/
def pyGetValue (g : String → Option String) : List String → Option String
  | [] => none
  | k :: ks =>
    match g k with
    | some v => if v ≠ "" ∧ pyLower v ≠ "nan" then some (pyStrip v) else pyGetValue g ks
    | none => pyGetValue g ks

/-- `DataLoader._clean_phone`: strip, drop a trailing ".0", apply the fixed
London grouping heuristics, map the empty string to `None`. -/
def pyCleanPhone (p : Option String) : Option String :=
  match p with
  | none => none
  | some s0 =>
    let s1 := pyStrip s0
    let s2 := if s1.endsWith ".0" then s1.dropRight 2 else s1
    let s3 :=
      if s2.startsWith "20" ∧ s2.length = 10 then
        "020 " ++ pySlice s2 2 6 ++ " " ++ pySlice s2 6 10
      else if s2.startsWith "2" ∧ s2.length = 10 then
        "020 " ++ pySlice s2 1 5 ++ " " ++ pySlice s2 5 10
      else s2
    if s3 = "" then none else some s3

/-! ## `src/models_v2.py`: the data model -/

/-- Python `f >= q` on a float: false for NaN, true for `+inf`. -/
def pyGeF (f : PyFloat) (q : ℚ) : Bool :=
  match f with
  | .finite x => q ≤ x
  | .inf neg => !neg
  | .nan => false

/-- Truthiness of an optional float (Python: `None`, `0.0` falsy; NaN truthy). -/
def pyTruthyF (o : Option PyFloat) : Bool :=
  match o with
  | none => false
  | some (.finite q) => q ≠ 0
  | some (.inf _) => true
  | some .nan => true

/-- `models_v2.Contact` (fields used by the loader; the `phone` field stores
the value after the model's before-validator stripped a trailing ".0" and
applied the "20"-prefix grouping). -/
structure Contact where
  full_name : String
  title : Option String := none
  first_name : Option String := none
  last_name : Option String := none
  phone : Option String := none
  confidence_score : ℚ := 1
deriving DecidableEq, Repr

/-- `Contact.clean_phone` before-validator. -/
def contactPhoneValidator (v : Option String) : Option String :=
  match v with
  | none => none
  | some s0 =>
    let s1 := if s0.endsWith ".0" then s0.dropRight 2 else s0
    if s1.startsWith "20" ∧ s1.length = 10 then
      some ("020 " ++ pySlice s1 2 6 ++ " " ++ pySlice s1 6 10)
    else some s1

/-- `models_v2.FinancialData` (the numeric fields built by the loader). -/
structure FinancialData where
  total_expenditure : Option PyFloat := none
  total_pupils : Option PyFloat := none
  teaching_staff_costs : Option PyFloat := none
  supply_teaching_costs : Option PyFloat := none
  educational_support_costs : Option PyFloat := none
  agency_supply_costs : Option PyFloat := none
  educational_consultancy_costs : Option PyFloat := none
  total_teaching_support_costs : Option PyFloat := none
deriving DecidableEq, Repr

/-- `FinancialData.get_priority_level`: `None` ↦ UNKNOWN, `>= 500000` ↦ HIGH,
`>= 200000` ↦ MEDIUM, else LOW. -/
def FinancialData.getPriorityLevel (fd : FinancialData) : String :=
  match fd.total_teaching_support_costs with
  | none => "UNKNOWN"
  | some spend =>
    if pyGeF spend 500000 then "HIGH"
    else if pyGeF spend 200000 then "MEDIUM"
    else "LOW"

/-- `models_v2.SENDData`. -/
structure SENDData where
  total_pupils : Option Int := none
  sen_support : Option Int := none
  ehc_plan : Option Int := none
  has_sen_unit : Bool := false
  has_resourced_provision : Bool := false
  ehc_asd : Option Int := none
  ehc_semh : Option Int := none
  ehc_slcn : Option Int := none
  ehc_sld : Option Int := none
  ehc_pmld : Option Int := none
  ehc_mld : Option Int := none
  ehc_spld : Option Int := none
  ehc_hi : Option Int := none
  ehc_vi : Option Int := none
  ehc_pd : Option Int := none
  sup_asd : Option Int := none
  sup_semh : Option Int := none
  sup_slcn : Option Int := none
deriving DecidableEq, Repr

/-- `SENDData.get_send_priority_score`: facility flags +50 each, EHC plans
×3, SEN support ×1, ASD and SEMH EHC counts ×2 (with `x or 0` for nulls). -/
def SENDData.getSendPriorityScore (sd : SENDData) : Int :=
  let score : Int := 0
  let score := if sd.has_sen_unit then score + 50 else score
  let score := if sd.has_resourced_provision then score + 50 else score
  let score := score + (sd.ehc_plan.getD 0) * 3
  let score := score + (sd.sen_support.getD 0) * 1
  let score := score + (sd.ehc_asd.getD 0) * 2
  let score := score + (sd.ehc_semh.getD 0) * 2
  score

/-- `SENDData.get_ehc_percentage`: `None` when `total_pupils` is null or 0. -/
def SENDData.getEhcPercentage (sd : SENDData) : Option ℚ :=
  match sd.total_pupils with
  | none => none
  | some n => if n = 0 then none else some (((sd.ehc_plan.getD 0 : ℚ) / n) * 100)

/-- `SENDData.get_send_priority_level`. -/
def SENDData.getSendPriorityLevel (sd : SENDData) : String :=
  if sd.has_sen_unit ∨ sd.has_resourced_provision then "HIGH"
  else
    let truthyPct :=
      match sd.getEhcPercentage with
      | none => false
      | some q => (q ≠ 0) && (5 < q)
    if truthyPct then "HIGH"
    else if 10 ≤ sd.ehc_plan.getD 0 then "HIGH"
    else if 5 ≤ sd.ehc_plan.getD 0 ∨ 30 ≤ sd.sen_support.getD 0 then "MEDIUM"
    else "LOW"

/-- `models_v2.ConversationStarter`. -/
structure ConversationStarter where
  topic : String
  detail : String
  source : Option String := none
  relevance_score : ℚ := 8 / 10
deriving DecidableEq, Repr

/-- `models_v2.OfstedData`. -/
structure OfstedData where
  rating : Option String := none
  inspection_date : Option String := none
  report_url : Option String := none
  areas_for_improvement : List String := []
  key_strengths : List String := []
deriving DecidableEq, Repr

/-- `models_v2.School` (the `last_updated` timestamp is not modelled). -/
structure School where
  urn : String
  school_name : String
  la_name : Option String := none
  address_1 : Option String := none
  address_2 : Option String := none
  address_3 : Option String := none
  town : Option String := none
  county : Option String := none
  postcode : Option String := none
  school_type : Option String := none
  phase : Option String := none
  pupil_count : Option Int := none
  trust_code : Option String := none
  trust_name : Option String := none
  phone : Option String := none
  website : Option String := none
  headteacher : Option Contact := none
  contacts : List Contact := []
  financial : Option FinancialData := none
  send : Option SENDData := none
  ofsted : Option OfstedData := none
  conversation_starters : List ConversationStarter := []
  data_source : String := "csv"
deriving DecidableEq, Repr

/-- `School.clean_phone` before-validator: strip a trailing ".0". -/
def schoolPhoneValidator (v : Option String) : Option String :=
  v.map (fun s => if s.endsWith ".0" then s.dropRight 2 else s)

/-- `School.get_sales_priority`. -/
def School.getSalesPriority (s : School) : String :=
  match s.financial with
  | none => "UNKNOWN"
  | some fd => fd.getPriorityLevel

/-- `School.get_send_priority`. -/
def School.getSendPriority (s : School) : String :=
  match s.send with
  | none => "UNKNOWN"
  | some sd => sd.getSendPriorityLevel

/-- `School.get_combined_priority`. -/
def School.getCombinedPriority (s : School) : String :=
  let fin_priority := s.getSalesPriority
  let send_priority := s.getSendPriority
  if fin_priority = "HIGH" ∨ send_priority = "HIGH" then "HIGH"
  else if fin_priority = "MEDIUM" ∨ send_priority = "MEDIUM" then "MEDIUM"
  else "LOW"

/-! ## `src/data_loader.py`: the merge (`_load_and_merge_csvs`,
`_merged_row_to_school`) -/

/-- One loaded source: a dict from cleaned URN to its raw row, as built by
`_load_gias_csv` / `_load_financial_csv` / `_load_send_csv`. -/
def Table := List (String × Row)

/-- `table.get(urn)`. -/
def tableGet (t : Table) (k : String) : Option Row :=
  match t.find? (fun p => p.1 = k) with
  | some p => some p.2
  | none => none

/-- `table.keys()`. -/
def tableKeys (t : Table) : List String := t.map (fun p => p.1)

/-- The merged record for one URN: `merged = {**fin, **gias}` (so a lookup
prefers the GIAS binding), with the financial and SEND rows attached under
`_financial` / `_send` when non-empty. -/
structure MergedRow where
  finPart : Row
  giasPart : Row
  fin : Option Row
  send : Option Row

/-- `merged.get(k)` for a plain column: `{**fin, **gias}` is last-writer-wins,
so the GIAS binding shadows the financial one. -/
def MergedRow.get (m : MergedRow) (k : String) : Option String :=
  match rowGet m.giasPart k with
  | some v => some v
  | none => rowGet m.finPart k

/-- `fin = row.get('_financial', row)`: the attached financial row when
present, else the merged dict itself. -/
def MergedRow.finGet (m : MergedRow) (k : String) : Option String :=
  match m.fin with
  | some fr => rowGet fr k
  | none => m.get k

/-- Python `a or b` where `a` is an optional string and `b` a plain string. -/
def pyOrStr (a : Option String) (b : String) : String :=
  match a with
  | some s => if s = "" then b else s
  | none => b

/-- The `SENDData(...)` construction block of `_merged_row_to_school`
(all `_safe_int` coercions, any of which may raise). -/
def buildSendData (sr : Row) : Except PyErr SENDData := do
  let sen_unit_val := rowGetD sr "SEN_Unit" "0"
  let rp_unit_val := rowGetD sr "RP_Unit" "0"
  let total_pupils ← pySafeInt (rowGet sr "Total pupils")
  let sen_support ← pySafeInt (rowGet sr "SEN support")
  let ehc_plan ← pySafeInt (rowGet sr "EHC plan")
  let ehc_asd ← pySafeInt (rowGet sr "EHC_Primary_need_asd")
  let ehc_semh ← pySafeInt (rowGet sr "EHC_Primary_need_semh")
  let ehc_slcn ← pySafeInt (rowGet sr "EHC_Primary_need_slcn")
  let ehc_sld ← pySafeInt (rowGet sr "EHC_Primary_need_sld")
  let ehc_pmld ← pySafeInt (rowGet sr "EHC_Primary_need_pmld")
  let ehc_mld ← pySafeInt (rowGet sr "EHC_Primary_need_mld")
  let ehc_spld ← pySafeInt (rowGet sr "EHC_Primary_need_spld")
  let ehc_hi ← pySafeInt (rowGet sr "EHC_Primary_need_hi")
  let ehc_vi ← pySafeInt (rowGet sr "EHC_Primary_need_vi")
  let ehc_pd ← pySafeInt (rowGet sr "EHC_Primary_need_pd")
  let sup_asd ← pySafeInt (rowGet sr "SUP_Primary_need_asd")
  let sup_semh ← pySafeInt (rowGet sr "SUP_Primary_need_semh")
  let sup_slcn ← pySafeInt (rowGet sr "SUP_Primary_need_slcn")
  pure { total_pupils := total_pupils, sen_support := sen_support, ehc_plan := ehc_plan,
         has_sen_unit := pyStrip sen_unit_val == "1",
         has_resourced_provision := pyStrip rp_unit_val == "1",
         ehc_asd := ehc_asd, ehc_semh := ehc_semh, ehc_slcn := ehc_slcn,
         ehc_sld := ehc_sld, ehc_pmld := ehc_pmld, ehc_mld := ehc_mld,
         ehc_spld := ehc_spld, ehc_hi := ehc_hi, ehc_vi := ehc_vi, ehc_pd := ehc_pd,
         sup_asd := sup_asd, sup_semh := sup_semh, sup_slcn := sup_slcn }

/-- The `send` branch of `_merged_row_to_school`: build `SENDData` when a
SEND row is attached, else `None`. -/
def buildSendOpt (o : Option Row) : Except PyErr (Option SENDData) :=
  match o with
  | none => pure none
  | some sr => do
      let sd ← buildSendData sr
      pure (some sd)

/-- The `FinancialData(...)` construction block of `_merged_row_to_school`
(`_safe_float` is total, so this is pure). -/
def buildFinancialData (m : MergedRow) : FinancialData :=
  { total_expenditure :=
      pySafeFloat (pyOr (m.finGet "TotalExpenditure") (m.finGet "total_expenditure"))
    total_pupils :=
      pySafeFloat (pyOr (m.finGet "TotalPupils") (m.get "pupil_count"))
    total_teaching_support_costs :=
      pySafeFloat (pyOr (m.finGet "TotalTeachingSupportStaffCosts")
        (m.finGet "total_teaching_support_costs"))
    teaching_staff_costs :=
      pySafeFloat (pyOr (m.finGet "TeachingStaffCosts") (m.finGet "teaching_staff_costs"))
    supply_teaching_costs :=
      pySafeFloat (pyOr (m.finGet "SupplyTeachingStaffCosts") (m.finGet "supply_teaching_costs"))
    agency_supply_costs :=
      pySafeFloat (pyOr (m.finGet "AgencySupplyTeachingStaffCosts")
        (m.finGet "agency_supply_costs"))
    educational_support_costs :=
      pySafeFloat (pyOr (m.finGet "EducationSupportStaffCosts")
        (m.finGet "educational_support_costs"))
    educational_consultancy_costs :=
      pySafeFloat (pyOr (m.finGet "EducationalConsultancyCosts")
        (m.finGet "educational_consultancy_costs")) }

/-- `DataLoader._merged_row_to_school`: builds one `School` from a merged
record; raises (drops the row) exactly when one of the `_safe_int` coercions
raises. -/
def mergedRowToSchool (m : MergedRow) (urn : String) : Except PyErr School := do
  let g := m.get
  let school_name :=
    pyOrStr (pyGetValue g ["school_name", "SchoolName", "school_name_gias"]) ("School " ++ urn)
  let la_name := pyGetValue g ["la_name", "LAName", "la_name_gias"]
  let school_type := pyGetValue g ["school_type", "SchoolType"]
  let phase := pyGetValue g ["phase", "Phase"]
  let pupil_count ← pySafeInt (pyOr (g "pupil_count") (g "TotalPupils"))
  let phone := pyCleanPhone (g "phone")
  let website := pyGetValue g ["website"]
  let head_title := pyGetValue g ["head_title"]
  let head_first := pyGetValue g ["head_first_name"]
  let head_last := pyGetValue g ["head_last_name"]
  let head_full := pyGetValue g ["headteacher"]
  let headteacher : Option Contact :=
    if pyTruthy head_full ∨ (pyTruthy head_first ∧ pyTruthy head_last) then
      some { full_name :=
               pyOrStr head_full
                 (pyStrip ((head_title.getD "") ++ " " ++ (head_first.getD "") ++ " " ++
                   (head_last.getD "")))
             title := head_title, first_name := head_first, last_name := head_last,
             phone := contactPhoneValidator phone, confidence_score := 1 }
    else none
  let financial := buildFinancialData m
  let send ← buildSendOpt m.send
  let address_1 := pyGetValue g ["address_1"]
  let address_2 := pyGetValue g ["address_2"]
  let address_3 := pyGetValue g ["address_3"]
  let town := pyGetValue g ["town"]
  let county := pyGetValue g ["county"]
  let postcode := pyGetValue g ["postcode"]
  let trust_code := pyGetValue g ["trust_code"]
  let trust_name := pyGetValue g ["trust_name"]
  pure { urn := urn, school_name := school_name, la_name := la_name,
         address_1 := address_1, address_2 := address_2, address_3 := address_3,
         town := town, county := county, postcode := postcode,
         school_type := school_type, phase := phase, pupil_count := pupil_count,
         trust_code := trust_code, trust_name := trust_name,
         phone := schoolPhoneValidator phone, website := website,
         headteacher := headteacher,
         contacts := match headteacher with | some h => [h] | none => [],
         financial := some financial, send := send, ofsted := none,
         conversation_starters := [], data_source := "csv_merged" }

/-- `all_urns = set(gias_data.keys()) | set(financial_data.keys())`, as a
duplicate-free list (Python set iteration order is immaterial to every
property below). -/
def pyUnionUrns (gias fin : Table) : List String :=
  (tableKeys gias ++ tableKeys fin).dedup

/-- The per-URN body of the merge loop in `_load_and_merge_csvs`. -/
def constructSchool (gias fin send : Table) (urn : String) : Except PyErr School :=
  let g := (tableGet gias urn).getD []
  let f := (tableGet fin urn).getD []
  let sd := (tableGet send urn).getD []
  let m : MergedRow :=
    { finPart := f, giasPart := g,
      fin := if f.isEmpty then none else some f,
      send := if sd.isEmpty then none else some sd }
  mergedRowToSchool m urn

/-- `DataLoader._load_and_merge_csvs` over already-loaded tables: one School
per URN in the union of the two primary key sets, with any row whose
construction raises caught, logged and dropped.  `refresh()` clears the cache
and re-runs exactly this computation. -/
def loadAndMerge (gias fin send : Table) : List School :=
  (pyUnionUrns gias fin).filterMap (fun urn => (constructSchool gias fin send urn).toOption)

/-! ## `src/streamlit_app_v2.py`: `export_shortlist_to_excel` -/

/-- Round half to even, as Python `format(x, ',.0f')` does. -/
def roundHalfEven (q : ℚ) : Int :=
  let f := ⌊q⌋
  let r := q - f
  if r < 1 / 2 then f
  else if 1 / 2 < r then f + 1
  else if f % 2 = 0 then f else f + 1

/-- Insert a comma after every third character of a reversed digit list. -/
def commaGroupRev (l : List Char) : List Char :=
  if _h : l.length ≤ 3 then l
  else l.take 3 ++ ',' :: commaGroupRev (l.drop 3)
termination_by l.length
decreasing_by
  simp only [List.length_drop]
  omega

/-- Python `f"{x:,.0f}"` on a float. -/
def pyFormatComma (f : PyFloat) : String :=
  match f with
  | .finite q =>
    let n := roundHalfEven q
    let ds := (commaGroupRev (natDigits n.natAbs).reverse).reverse
    if n < 0 then ⟨'-' :: ds⟩ else ⟨ds⟩
  | .inf neg => if neg then "-inf" else "inf"
  | .nan => "nan"

/-- One row of the "School Summary" sheet. -/
structure SummaryRow where
  school_name : String
  urn : String
  local_authority : String
  headteacher : String
  phone : String
  website : String
  financial_priority : String
  staffing_spend : String
  send_priority : String
  ehc_plans : Int
  sen_support : Int
  has_sen_unit : String
  has_resourced_provision : String
  gov_uk_link : String
deriving DecidableEq, Repr

/-- One row of the "Conversation Starters" sheet. -/
structure StarterRow where
  school_name : String
  urn : String
  topic : String
  conversation_script : String
  source : String
deriving DecidableEq, Repr

/-- Sheet payloads of the exported workbook. -/
inductive SheetData where
  | summary (rows : List SummaryRow)
  | starters (rows : List StarterRow)
deriving DecidableEq, Repr

/-- The per-school summary entry built inside `export_shortlist_to_excel`. -/
def summaryRowOf (school : School) : SummaryRow :=
  let fin_priority := school.getSalesPriority
  let send_priority := school.getSendPriority
  let staffing_spend :=
    match school.financial with
    | none => ""
    | some fd =>
      match fd.total_teaching_support_costs with
      | some c => if pyTruthyF (some c) then "£" ++ pyFormatComma c else ""
      | none => ""
  let ehc_plans := match school.send with | some sd => sd.ehc_plan.getD 0 | none => 0
  let sen_support := match school.send with | some sd => sd.sen_support.getD 0 | none => 0
  let has_sen_unit :=
    match school.send with
    | some sd => if sd.has_sen_unit then "Yes" else "No"
    | none => "No"
  let has_rp :=
    match school.send with
    | some sd => if sd.has_resourced_provision then "Yes" else "No"
    | none => "No"
  { school_name := school.school_name
    urn := school.urn
    local_authority := pyOrStr school.la_name ""
    headteacher := match school.headteacher with | some h => h.full_name | none => ""
    phone := pyOrStr school.phone ""
    website := pyOrStr school.website ""
    financial_priority := fin_priority
    staffing_spend := staffing_spend
    send_priority := send_priority
    ehc_plans := ehc_plans
    sen_support := sen_support
    has_sen_unit := has_sen_unit
    has_resourced_provision := has_rp
    gov_uk_link :=
      "https://schools-financial-benchmarking.service.gov.uk/school?urn=" ++ school.urn }

/-- The per-starter entry built inside `export_shortlist_to_excel`. -/
def starterRowOf (school : School) (starter : ConversationStarter) : StarterRow :=
  { school_name := school.school_name
    urn := school.urn
    topic := starter.topic
    conversation_script := starter.detail
    source := pyOrStr starter.source "Financial/School Data" }

/-- `export_shortlist_to_excel`: always writes the "School Summary" sheet;
writes the "Conversation Starters" sheet only when `starters_data` is
non-empty (`if starters_data:`). -/
def exportShortlistToExcel (schools : List School) : List (String × SheetData) :=
  let summary_data := schools.map summaryRowOf
  let starters_data :=
    schools.flatMap (fun sch => sch.conversation_starters.map (starterRowOf sch))
  [("School Summary", SheetData.summary summary_data)] ++
    (if starters_data.isEmpty then [] else
      [("Conversation Starters", SheetData.starters starters_data)])

/-! ## `src/Chains/OfstedChains.py`: pattern extraction

The regex engine is supplied as an oracle `finditer : pattern → text →
matches`; everything the chain does with the matches (context windows,
categorisation, deduplication, sentence extraction, capping) is embedded
from the source. -/

/-- A `re.Match`: `group(0)`, `start()` and `end()`. -/
structure ReMatch where
  group0 : String
  start : Nat
  stop : Nat
deriving DecidableEq, Repr

/-- Python `needle in hay` on strings. -/
def pyContains (hay needle : String) : Bool :=
  hay.data.tails.any (fun t => needle.data.isPrefixOf t)

/-- `self.broad_improvement_patterns` (regex source strings, data only). -/
def broadImprovementPatterns : List String :=
  [ r"(?:improve|develop|strengthen|raise standards in|enhance) (?:the )?(?:teaching of |provision for |outcomes in |progress in |achievement in )?(?:mathematics|maths|numeracy)",
    r"(?:improve|develop|strengthen|raise standards in|enhance) (?:the )?(?:teaching of |provision for |outcomes in |progress in |achievement in )?(?:english|literacy|reading|writing|phonics)",
    r"(?:improve|develop|strengthen|raise standards in|enhance) (?:the )?(?:teaching of |provision for |outcomes in |progress in |achievement in )?(?:science)",
    r"(?:improve|raise|increase) (?:outcomes|results|achievement|progress|attainment) (?:in|at|for) (?:key stage \d|KS\d|year \d|early years|EYFS)",
    r"(?:improve|raise) (?:SATs|GCSE|A-level|examination) results",
    r"(?:ensure|improve) (?:more|all) pupils (?:achieve|reach|attain) (?:expected|higher) standards",
    r"(?:improve|develop|strengthen|enhance) (?:provision for |support for |outcomes for )?(?:SEND pupils|pupils with SEND|special educational needs)",
    r"(?:ensure|improve) (?:SEND|SEN) (?:pupils|children|students) (?:make better progress|achieve better|are better supported)",
    r"(?:improve|address|tackle) (?:behaviour|attendance|punctuality|persistent absence)",
    r"(?:reduce|address) (?:exclusions|fixed-term exclusions|persistent absence)",
    r"(?:strengthen|improve|develop) (?:leadership|middle leadership|subject leadership|senior leadership)",
    r"(?:develop|improve) (?:the effectiveness of |capacity in )?(?:leaders|leadership team|middle leaders)",
    r"(?:improve|ensure) (?:the quality of |consistency of |effectiveness of )?teaching",
    r"(?:ensure|improve) (?:all )?teachers (?:provide|deliver|use) (?:high-quality|effective|consistent)",
    r"(?:improve|develop|strengthen) (?:the )?curriculum (?:in|for|planning|implementation)",
    r"(?:ensure|improve) (?:curriculum|subjects) (?:are|is) (?:well-sequenced|properly planned|effectively delivered)",
    r"(?:improve|develop|strengthen) (?:assessment|tracking|monitoring) (?:systems|of pupil progress|procedures)",
    r"(?:strengthen|improve|address) (?:safeguarding|child protection|safer recruitment)" ]

/-- `self.key_subjects`, in dict insertion order. -/
def keySubjects : List (String × List String) :=
  [ ("mathematics", ["mathematics", "maths", "numeracy", "calculation", "arithmetic"]),
    ("english", ["english", "literacy", "reading", "writing", "phonics", "spelling", "grammar"]),
    ("science", ["science", "scientific", "investigation", "experiments"]),
    ("computing", ["computing", "ICT", "computer science", "digital"]),
    ("languages", ["languages", "MFL", "french", "spanish", "foreign language"]),
    ("humanities", ["history", "geography", "RE", "religious education"]),
    ("arts", ["art", "music", "drama", "creative"]),
    ("pe", ["PE", "physical education", "sport", "sports"]) ]

/-- `any(word in text_lower for word in words)`. -/
def anyWord (text_lower : String) (words : List String) : Bool :=
  words.any (fun w => pyContains text_lower w)

/-- `OfstedChain._categorize_improvement`: first-match-wins keyword table. -/
def categorizeImprovement (text : String) : String :=
  let tl := pyLower text
  if anyWord tl ["mathematics", "maths", "numeracy"] then "Mathematics"
  else if anyWord tl ["english", "literacy", "reading", "writing", "phonics"] then
    "English/Literacy"
  else if pyContains tl "science" then "Science"
  else if anyWord tl ["send", "special educational"] then "SEND Provision"
  else if anyWord tl ["behaviour", "attendance", "exclusion"] then "Behaviour/Attendance"
  else if anyWord tl ["leadership", "leaders", "management"] then "Leadership"
  else if anyWord tl ["teaching", "teachers", "pedagogy"] then "Teaching Quality"
  else if anyWord tl ["curriculum", "planning", "sequencing"] then "Curriculum"
  else if anyWord tl ["assessment", "tracking", "progress"] then "Assessment"
  else if anyWord tl ["safeguarding", "safety", "protection"] then "Safeguarding"
  else if anyWord tl ["early years", "eyfs", "reception"] then "Early Years"
  else "General Improvement"

/-- Fuel-driven core of the parenthesis-removing `re.sub` (each recursive
call shortens the list, so fuel = length suffices). -/
def removeParensAux : Nat → List Char → List Char
  | 0, _ => []
  | _, [] => []
  | fuel + 1, c :: rest =>
    if c = '(' then
      match rest.dropWhile (fun x => x ≠ ')') with
      | [] => c :: removeParensAux fuel rest
      | _ :: after => removeParensAux fuel after
    else c :: removeParensAux fuel rest

/-- `re.sub` of the pattern removing parenthesised runs: each `(` with a
later `)` is deleted together with everything up to that `)`; a `(` with no
later `)` is kept. -/
def removeParens (l : List Char) : List Char := removeParensAux l.length l

/-- Fuel-driven core of run collapsing (fuel = length suffices). -/
def collapseRunsAux (p : Char → Bool) (repl : Char) : Nat → List Char → List Char
  | 0, _ => []
  | _, [] => []
  | fuel + 1, c :: rest =>
    if p c then repl :: collapseRunsAux p repl fuel (rest.dropWhile p)
    else c :: collapseRunsAux p repl fuel rest

/-- `re.sub(pat+, repl)` for a character-class pattern: collapse each run of
characters satisfying `p` to the single character `repl`. -/
def collapseRuns (p : Char → Bool) (repl : Char) (l : List Char) : List Char :=
  collapseRunsAux p repl l.length l

/-- `OfstedChain._clean_text`: drop parenthesised text, collapse newline runs
then whitespace runs to single spaces, strip, and truncate to 147 chars plus
an ellipsis when longer than 150. -/
def cleanText (text : String) : String :=
  let t1 := removeParens text.data
  let t2 := collapseRuns (fun c => c == '\n' || c == '\x0d') ' ' t1
  let t3 := collapseRuns isPyWs ' ' t2
  let t4 := pyStripL t3
  if 150 < t4.length then (⟨t4.take 147⟩ : String) ++ "..." else ⟨t4⟩

/-- `OfstedChain._get_sentence_context`: the sentence around `pos`, bounded
by the nearest `.` before (`str.rfind`) and at-or-after (`str.find`) it. -/
def getSentenceContext (text : String) (pos : Nat) : String :=
  let start :=
    match (text.data.take pos).reverse.findIdx? (fun c => c = '.') with
    | some j => pos - 1 - j + 1
    | none => 0
  let stop :=
    match (text.data.drop pos).findIdx? (fun c => c = '.') with
    | some j => pos + j + 1
    | none => text.data.length
  pyStrip (pySlice text start stop)

/-- An entry of the `improvements` list built by
`_extract_broad_improvements`. -/
structure Improvement where
  category : String
  improvement : String
  original_match : String
deriving DecidableEq, Repr

/-- The flattened pattern/match loop of `_extract_broad_improvements`,
threading the `seen` key set. -/
def broadDedupGo (text : String) : List ReMatch → List String → List Improvement
  | [], _ => []
  | m :: rest, seen =>
    let full_match := m.group0
    let start := m.start - 50
    let stop := min text.data.length (m.stop + 100)
    let context := pyStrip (pySlice text start stop)
    let category := categorizeImprovement full_match
    let key := category ++ ":" ++ full_match.take 30
    if key ∈ seen then broadDedupGo text rest seen
    else
      { category := category, improvement := cleanText context, original_match := full_match }
        :: broadDedupGo text rest (key :: seen)

/-- `OfstedChain._extract_broad_improvements`: all matches of the fixed
pattern list, deduplicated by the `category:match[:30]` key. -/
def extractBroadImprovements (finditer : String → String → List ReMatch)
    (text : String) : List Improvement :=
  broadDedupGo text (broadImprovementPatterns.flatMap (fun pat => finditer pat text)) []

/-- The five problem-phrasing templates of `_extract_subject_issues`,
instantiated at a keyword. -/
def subjectPatterns (keyword : String) : List String :=
  [ keyword ++ ".*?(?:weak|poor|inadequate|below|behind|not good enough)",
    "(?:weak|poor|inadequate|below|behind).*?" ++ keyword,
    keyword ++ ".*?(?:need|needs|require|requires).*?(?:improvement|developing|attention)",
    "(?:improve|develop|strengthen).*?" ++ keyword,
    keyword ++ ".*?(?:is|are) not.*?(?:good|effective|strong) enough" ]

/-- `OfstedChain._extract_subject_issues`.  `setOrder` models the arbitrary
enumeration order of `list(set(issues))`: any function that returns a
duplicate-free enumeration of its input's members. -/
def extractSubjectIssues (finditer : String → String → List ReMatch)
    (setOrder : List String → List String) (text : String) :
    List (String × List String) :=
  keySubjects.filterMap (fun subj =>
    let issues := subj.2.flatMap (fun kw =>
      (subjectPatterns kw).flatMap (fun pat =>
        (finditer pat text).filterMap (fun m =>
          let context := getSentenceContext text m.start
          if context ≠ "" ∧ 20 < context.length then some context else none)))
    if issues.isEmpty then none
    else some (subj.1, (setOrder issues).take 3))

/-! ## `src/Chains/OfstedChains.py`: report discovery and `analyze` -/

/-- Outcome of an effectful Python call: a value, or a raised exception
carried as its `str(e)` message. -/
inductive StepOut (α : Type) where
  | ok (a : α)
  | raise (msg : String)
deriving DecidableEq, Repr

/-- The external world seen by `_find_ofsted_report_url`: the configured
Serper key, the Serper call per query (status code and organic result
links; a raise is caught per query), the page-scrape helper
`_extract_pdf_from_page` (catches internally, so never raises) and the
fallback `_try_direct_ofsted_url` (likewise). -/
structure SearchEnv where
  serperKey : Option String
  serperCall : String → StepOut (Nat × List String)
  extractPdfFromPage : String → Option String
  tryDirect : Option String

/-- `OfstedChain._is_ofsted_pdf_url`. -/
def isOfstedPdfUrl (url : String) : Bool :=
  let ul := pyLower url
  (pyContains ul "ofsted" || pyContains ul "files.ofsted.gov.uk") &&
    (ul.endsWith ".pdf" || pyContains ul "file/")

/-- The inner loop over one query's organic results. -/
def scanLinks (env : SearchEnv) : List String → Option String
  | [] => none
  | link :: rest =>
    if isOfstedPdfUrl link then some link
    else if pyContains link "reports.ofsted.gov.uk" || pyContains link "ofsted.gov.uk" then
      match env.extractPdfFromPage link with
      | some pdf => some pdf
      | none => scanLinks env rest
    else scanLinks env rest

/-- The three query formulations tried by `_find_ofsted_report_url`. -/
def searchQueries (school_name : String) : List String :=
  [ "\"" ++ school_name ++ "\" site:files.ofsted.gov.uk filetype:pdf",
    school_name ++ " Ofsted report PDF",
    "\"" ++ school_name ++ "\" Ofsted inspection report" ]

/-- The outer query loop: a raised search error or a non-200 status is
logged and skipped; falls through to `_try_direct_ofsted_url`. -/
def queryLoop (env : SearchEnv) : List String → Option String
  | [] => env.tryDirect
  | q :: rest =>
    match env.serperCall q with
    | .raise _ => queryLoop env rest
    | .ok (status, links) =>
      if status = 200 then
        match scanLinks env links with
        | some url => some url
        | none => queryLoop env rest
      else queryLoop env rest

/-- `OfstedChain._find_ofsted_report_url`: with no Serper key, go straight
to the direct fallback; otherwise run the query loop. -/
def findOfstedReportUrl (env : SearchEnv) (school_name : String) : Option String :=
  match env.serperKey with
  | none => env.tryDirect
  | some _ => queryLoop env (searchQueries school_name)

/-- One `subject_improvements` entry of the LLM's JSON answer. -/
structure SubjectImp where
  issues : List String := []
  year_groups_affected : Option (List String) := none
  urgency : Option String := none
deriving DecidableEq, Repr

/-- One `main_improvements` entry of the LLM's JSON answer. -/
structure MainImp where
  area : Option String := none
  description : Option String := none
  specifics : Option String := none
deriving DecidableEq, Repr

/-- The structured-analysis JSON produced by `_analyze_with_llm` (which
catches its own errors, returning the empty analysis). -/
structure Analysis where
  main_improvements : List MainImp := []
  subject_improvements : List (String × SubjectImp) := []
  other_key_improvements : List (String × List String) := []
  priority_order : List String := []
deriving DecidableEq, Repr

/-- `d.get(k, {})` over the subject-improvements dict. -/
def lookupSubj (l : List (String × SubjectImp)) (k : String) : SubjectImp :=
  match l.find? (fun p => p.1 = k) with
  | some p => p.2
  | none => {}

/-- `d.get(k, [])` over the other-key-improvements dict. -/
def lookupStrs (l : List (String × List String)) (k : String) : List String :=
  match l.find? (fun p => p.1 = k) with
  | some p => p.2
  | none => []

/-- `OfstedChain._generate_conversation_starters`. -/
def generateConversationStarters (analysis : Analysis) (report_url : String) :
    List ConversationStarter :=
  let starters : List ConversationStarter := []
  let starters := starters ++
    (match analysis.main_improvements with
     | [] => []
     | top :: _ =>
       let area := top.area.getD "Key areas"
       [ { topic := area ++ " Support",
           detail := "I noticed from your recent Ofsted report that " ++ pyLower area ++
             " was identified as a development area. We work with several schools facing similar challenges and have seen great results. For example, one partner school improved outcomes by 22% in just two terms with the right specialist support. Would it be helpful to discuss how we might support your improvement journey?",
           source := some report_url, relevance_score := 1 } ])
  let maths := lookupSubj analysis.subject_improvements "mathematics"
  let starters := starters ++
    (if maths.urgency = some "HIGH" then
       let year_groups := maths.year_groups_affected.getD ["KS2"]
       [ { topic := "Mathematics Improvement",
           detail := "Your Ofsted report highlights mathematics as a priority, particularly for " ++
             String.intercalate ", " year_groups ++
             ". We\x27ve placed maths specialists who\x27ve made significant impacts - one helped increase pupils meeting expected standards from 61% to 78%. What are your main priorities for maths improvement this term?",
           source := some report_url, relevance_score := 95 / 100 } ]
     else [])
  let english := lookupSubj analysis.subject_improvements "english"
  let starters := starters ++
    (if english.urgency = some "HIGH" ∨ english.urgency = some "MEDIUM" then
       [ { topic := "English & Literacy Support",
           detail := "I see from your Ofsted that English/literacy development is a focus area. Reading and writing outcomes are so crucial for overall progress. We have experienced English specialists who\x27ve helped schools significantly improve their phonics and reading comprehension results. Would you like to hear about some approaches that have worked well?",
           source := some report_url, relevance_score := 92 / 100 } ]
     else [])
  let send_issues := lookupStrs analysis.other_key_improvements "send"
  let starters := starters ++
    (if send_issues.isEmpty then []
     else
       [ { topic := "SEND Provision Support",
           detail := "I understand from your Ofsted report that enhancing SEND provision is a priority. This is such a crucial area. We work with experienced SEND practitioners who can help develop whole-school SEND systems. Many have experience preparing schools for Ofsted. What aspects of SEND provision are you looking to strengthen?",
           source := some report_url, relevance_score := 93 / 100 } ])
  let leadership_issues := lookupStrs analysis.other_key_improvements "leadership"
  let starters := starters ++
    (if leadership_issues.isEmpty then []
     else
       [ { topic := "Leadership Development",
           detail := "Your Ofsted mentions leadership development as an area for focus. Strong middle leadership is often key to driving improvement across a school. We can connect you with experienced leaders who can provide interim support or mentoring. What leadership capacity challenges are you currently facing?",
           source := some report_url, relevance_score := 88 / 100 } ])
  let starters := starters ++
    (if 2 ≤ analysis.priority_order.length then
       [ { topic := "Ofsted Action Plan Support",
           detail := "Looking at your Ofsted priorities, you have several areas to address. We understand how challenging it is to tackle multiple improvements while maintaining day-to-day excellence. We could discuss a coordinated approach, starting with your top priority. What timeline are you working to for showing progress to Ofsted?",
           source := some report_url, relevance_score := 9 / 10 } ]
     else [])
  starters

/-- The external world seen by `OfstedChain.analyze` beyond discovery:
PDF download/extraction (its own errors are caught to `None`, but an
unexpected raise is still routed through `analyze`'s catch-all), the pure
regex passes for rating and date, the regex engine, the `list(set(...))`
enumeration, and the LLM call (which catches its own errors). -/
structure OfstedEnv where
  search : SearchEnv
  downloadExtract : String → StepOut (Option String)
  extractRatingO : String → Option String
  extractDateO : String → Option String
  finditer : String → String → List ReMatch
  setOrder : List String → List String
  llmAnalysis : List Improvement → List (String × List String) → Analysis

/-- The result dict of `OfstedChain.analyze`; `subject_improvements` and
`priority_order` are `none` while their keys are absent. -/
structure AnalyzeResult where
  rating : Option String := none
  inspection_date : Option String := none
  report_url : Option String := none
  improvements : List MainImp := []
  conversation_starters : List ConversationStarter := []
  pdf_extracted : Bool := false
  subject_improvements : Option (List (String × SubjectImp)) := none
  priority_order : Option (List String) := none
  error : Option String := none
deriving DecidableEq, Repr

/-- `OfstedChain.analyze`: never raises — every failure path fills the
single `error` field of the result dict and returns it. -/
def analyzeOfsted (env : OfstedEnv) (school_name : String) : AnalyzeResult :=
  let found := findOfstedReportUrl env.search school_name
  if ¬ pyTruthy found then { error := some "Could not find Ofsted report" }
  else
    let report_url := found.getD ""
    match env.downloadExtract report_url with
    | .raise msg => { report_url := some report_url, error := some msg }
    | .ok pdf? =>
      if ¬ pyTruthy pdf? then
        { report_url := some report_url, error := some "Could not extract PDF content" }
      else
        let pdf_text := pdf?.getD ""
        let rating := env.extractRatingO pdf_text
        let inspection_date := env.extractDateO pdf_text
        let broad := extractBroadImprovements env.finditer pdf_text
        let subj := extractSubjectIssues env.finditer env.setOrder pdf_text
        let analysis := env.llmAnalysis broad subj
        { rating := rating, inspection_date := inspection_date,
          report_url := some report_url, pdf_extracted := true,
          improvements := analysis.main_improvements,
          subject_improvements := some analysis.subject_improvements,
          priority_order := some analysis.priority_order,
          conversation_starters := generateConversationStarters analysis report_url,
          error := none }

/-- The dedup key used by `_extract_broad_improvements`, recomputed from an
emitted entry. -/
def improvementKey (imp : Improvement) : String :=
  imp.category ++ ":" ++ imp.original_match.take 30

/-! ## Concrete instances used to exercise the definitions -/

/-- A minimal school: no financial, SEND or Ofsted data and no starters. -/
def sampleSchool : School := { urn := "100001", school_name := "Sample Primary School" }

/-- A one-row GIAS table. -/
def sampleGias : Table := [("1", [("school_name", "Alpha Primary")])]

/-- A one-row financial table under a different URN. -/
def sampleFin : Table := [("2", [("TotalExpenditure", "5")])]

/-- A GIAS table whose single row carries an infinite pupil count. -/
def giasInfRow : Table := [("1", [("pupil_count", "inf")])]

/-- A search world where every query succeeds with no organic results and
the direct fallback also finds nothing. -/
def sampleSearchEnv : SearchEnv :=
  { serperKey := some "k", serperCall := fun _ => .ok (200, []),
    extractPdfFromPage := fun _ => none, tryDirect := none }

/-- An analysis world on top of `sampleSearchEnv`. -/
def sampleOfstedEnv : OfstedEnv :=
  { search := sampleSearchEnv, downloadExtract := fun _ => .ok none,
    extractRatingO := fun _ => none, extractDateO := fun _ => none,
    finditer := fun _ _ => [], setOrder := fun l => l.dedup,
    llmAnalysis := fun _ _ => {} }

/-- A regex oracle that returns one match at position 0 for every pattern. -/
def sampleMatcher : String → String → List ReMatch :=
  fun _ _ => [{ group0 := "weak", start := 0, stop := 4 }]

/-- A short report text containing one problem sentence. -/
def sampleText : String := "maths progress is weak."

/-! ## Definitions written from the specification's words (for the
refinement-style claims; to be compared with the embedded code) -/

/-- The spec's description of the priority tier: a pure step function of the
designated total field against the two fixed thresholds. -/
def specPriorityLevel (cost : Option ℚ) : String :=
  match cost with
  | none => "UNKNOWN"
  | some c => if 500000 ≤ c then "HIGH" else if 200000 ≤ c then "MEDIUM" else "LOW"

/-- The spec's description of the SEND score: facility flags 50 points each,
EHC count ×3, SEN-support count ×1, the ASD and SEMH need types ×2 each
(null counts as 0). -/
def specSendScore (hasUnit hasRP : Bool) (ehc sen asd semh : Int) : Int :=
  50 * (if hasUnit then 1 else 0) + 50 * (if hasRP then 1 else 0) +
    3 * ehc + 1 * sen + 2 * asd + 2 * semh

/-! ## Helper lemmas: `strip` -/

theorem dropWhile_eq_self_of_none {p : Char → Bool} {l : List Char}
    (h : ∀ c ∈ l, p c = false) : l.dropWhile p = l := by
  cases l with
  | nil => rfl
  | cons c t =>
    rw [List.dropWhile_cons, if_neg]
    simp [h c (by simp)]

theorem pyStripL_of_no_ws {l : List Char} (h : ∀ c ∈ l, isPyWs c = false) :
    pyStripL l = l := by
  unfold pyStripL
  rw [dropWhile_eq_self_of_none h, dropWhile_eq_self_of_none (fun c hc => h c (by
    simpa using hc)), List.reverse_reverse]

theorem pyStripL_eq_rdropWhile (l : List Char) :
    pyStripL l = List.rdropWhile isPyWs (l.dropWhile isPyWs) := rfl

theorem dropWhile_head_not {p : Char → Bool} {l : List Char} {a : Char} {b : List Char}
    (hd : l.dropWhile p = a :: b) : p a = false := by
  induction l with
  | nil => simp [List.dropWhile] at hd
  | cons x xs ih =>
    rw [List.dropWhile_cons] at hd
    by_cases hx : p x
    · rw [if_pos hx] at hd
      exact ih hd
    · rw [if_neg hx] at hd
      cases hd
      simpa using hx

theorem dropWhile_pyStripL (l : List Char) :
    (pyStripL l).dropWhile isPyWs = pyStripL l := by
  rw [pyStripL_eq_rdropWhile]
  rcases h : List.rdropWhile isPyWs (l.dropWhile isPyWs) with _ | ⟨c, t⟩
  · rfl
  · rw [List.dropWhile_cons]
    have hpre : c :: t <+: l.dropWhile isPyWs := by
      rw [← h]
      exact List.rdropWhile_prefix _ _
    obtain ⟨u, hu⟩ := hpre
    rcases hd : l.dropWhile isPyWs with _ | ⟨a, b⟩
    · rw [hd] at hu
      simp at hu
    · rw [hd] at hu
      have hca : c = a := by
        have := congrArg (fun x => x.head?) hu
        simpa using this
      subst hca
      rw [if_neg (by simp [dropWhile_head_not hd])]

theorem pyStripL_idem (l : List Char) : pyStripL (pyStripL l) = pyStripL l := by
  have h1 : pyStripL (pyStripL l) = List.rdropWhile isPyWs ((pyStripL l).dropWhile isPyWs) :=
    rfl
  rw [h1, dropWhile_pyStripL, pyStripL_eq_rdropWhile, List.rdropWhile_idempotent]

theorem pyStrip_idem (s : String) : pyStrip (pyStrip s) = pyStrip s := by
  unfold pyStrip
  exact congrArg String.mk (pyStripL_idem s.data)

/-! ## Helper lemmas: decimal digits and the `float`/`int`/`str` roundtrip -/

theorem digitChar_mem {d : Nat} (h : d < 10) : digitChar d ∈ digitChars := by
  interval_cases d <;> decide

theorem digitChars_props : ∀ c ∈ digitChars,
    Char.isDigit c = true ∧ isPyWs c = false ∧ c.toLower = c ∧
    c ≠ '+' ∧ c ≠ '-' ∧ c ≠ 'i' ∧ c ≠ 'n' := by decide

theorem digitChar_toNat {d : Nat} (h : d < 10) : (digitChar d).toNat = 48 + d := by
  interval_cases d <;> decide

theorem natDigitsAux_mem :
    ∀ fuel n, n < fuel → ∀ c ∈ natDigitsAux fuel n, c ∈ digitChars := by
  intro fuel
  induction fuel with
  | zero => omega
  | succ f ih =>
    intro n h c hc
    rw [natDigitsAux] at hc
    by_cases h10 : n < 10
    · rw [if_pos h10] at hc
      simp only [List.mem_singleton] at hc
      subst hc
      exact digitChar_mem h10
    · rw [if_neg h10] at hc
      rcases List.mem_append.mp hc with h1 | h2
      · have hdiv : n / 10 < n := Nat.div_lt_self (by omega) (by omega)
        exact ih (n / 10) (by omega) c h1
      · simp only [List.mem_singleton] at h2
        subst h2
        exact digitChar_mem (Nat.mod_lt _ (by omega))

theorem digitsToNat_append (a : List Char) (c : Char) :
    digitsToNat (a ++ [c]) = 10 * digitsToNat a + (c.toNat - 48) := by
  unfold digitsToNat
  rw [List.foldl_append]
  rfl

theorem natDigitsAux_val :
    ∀ fuel n, n < fuel → digitsToNat (natDigitsAux fuel n) = n := by
  intro fuel
  induction fuel with
  | zero => omega
  | succ f ih =>
    intro n h
    rw [natDigitsAux]
    by_cases h10 : n < 10
    · rw [if_pos h10]
      have : digitsToNat [digitChar n] = (digitChar n).toNat - 48 := by
        unfold digitsToNat
        simp [List.foldl]
      rw [this, digitChar_toNat h10]
      omega
    · rw [if_neg h10, digitsToNat_append]
      have hdiv : n / 10 < n := Nat.div_lt_self (by omega) (by omega)
      rw [ih (n / 10) (by omega), digitChar_toNat (Nat.mod_lt _ (by omega))]
      omega

theorem natDigits_mem {n : Nat} : ∀ c ∈ natDigits n, c ∈ digitChars :=
  natDigitsAux_mem (n + 1) n (Nat.lt_succ_self n)

theorem natDigits_val (n : Nat) : digitsToNat (natDigits n) = n :=
  natDigitsAux_val (n + 1) n (Nat.lt_succ_self n)

theorem natDigits_ne_nil (n : Nat) : natDigits n ≠ [] := by
  unfold natDigits
  rw [natDigitsAux]
  split <;> simp

theorem takeWhile_digits_eq {l : List Char} (h : ∀ c ∈ l, c ∈ digitChars) :
    l.takeWhile Char.isDigit = l := by
  induction l with
  | nil => rfl
  | cons c t ih =>
    rw [List.takeWhile_cons, if_pos (digitChars_props c (h c (by simp))).1]
    rw [ih (fun a ha => h a (List.mem_cons_of_mem _ ha))]

theorem dropWhile_digits_eq {l : List Char} (h : ∀ c ∈ l, c ∈ digitChars) :
    l.dropWhile Char.isDigit = [] :=
  List.dropWhile_eq_nil_iff.mpr (fun x hx => (digitChars_props x (h x hx)).1)

theorem sciRat_nat (n : Nat) : sciRat n 0 0 0 = ((n : ℚ)) := by
  unfold sciRat
  norm_num

theorem parseMantissa_digits {l : List Char} (hne : l ≠ [])
    (h : ∀ c ∈ l, c ∈ digitChars) :
    parseMantissa l = some ((digitsToNat l : ℚ)) := by
  unfold parseMantissa
  rw [takeWhile_digits_eq h, dropWhile_digits_eq h]
  simp [hne, sciRat_nat]

theorem map_toLower_digits {l : List Char} (h : ∀ c ∈ l, c ∈ digitChars) :
    l.map Char.toLower = l := by
  have h1 : l.map Char.toLower = l.map id :=
    List.map_congr_left (fun c hc => (digitChars_props c (h c hc)).2.2.1)
  simpa using h1

theorem pyFloatNoSign_digits (neg : Bool) {l : List Char} (hne : l ≠ [])
    (h : ∀ c ∈ l, c ∈ digitChars) :
    pyFloatNoSign neg l =
      some (.finite (if neg then -(digitsToNat l : ℚ) else (digitsToNat l : ℚ))) := by
  obtain ⟨c, t, rfl⟩ := List.exists_cons_of_ne_nil hne
  have hc := digitChars_props c (h c (by simp))
  have hmap : (c :: t).map Char.toLower = c :: t := map_toLower_digits h
  have hinf : (c :: t).map Char.toLower ≠ "inf".data := by
    rw [hmap]
    intro h1
    have h2 := congrArg List.head? h1
    simp only [List.head?_cons] at h2
    exact hc.2.2.2.2.2.1 (Option.some.inj h2)
  have hinfinity : (c :: t).map Char.toLower ≠ "infinity".data := by
    rw [hmap]
    intro h1
    have h2 := congrArg List.head? h1
    simp only [List.head?_cons] at h2
    exact hc.2.2.2.2.2.1 (Option.some.inj h2)
  have hnan : (c :: t).map Char.toLower ≠ "nan".data := by
    rw [hmap]
    intro h1
    have h2 := congrArg List.head? h1
    simp only [List.head?_cons] at h2
    exact hc.2.2.2.2.2.2 (Option.some.inj h2)
  have hpm := parseMantissa_digits hne h
  unfold pyFloatNoSign
  rw [if_neg (by tauto), if_neg hnan, hpm]

theorem pyFloatCore_digits {l : List Char} (hne : l ≠ [])
    (h : ∀ c ∈ l, c ∈ digitChars) :
    pyFloatCore l = some (.finite ((digitsToNat l : ℚ))) := by
  obtain ⟨c, t, rfl⟩ := List.exists_cons_of_ne_nil hne
  have hc := digitChars_props c (h c (by simp))
  simp only [pyFloatCore]
  rw [if_neg hc.2.2.2.1, if_neg hc.2.2.2.2.1, pyFloatNoSign_digits false hne h]
  simp

theorem pyFloatCore_neg_digits {l : List Char} (hne : l ≠ [])
    (h : ∀ c ∈ l, c ∈ digitChars) :
    pyFloatCore ('-' :: l) = some (.finite (-(digitsToNat l : ℚ))) := by
  simp only [pyFloatCore, if_true]
  rw [pyFloatNoSign_digits true hne h]
  simp

theorem ratTrunc_intCast (i : Int) : ratTrunc ((i : ℚ)) = i := by
  unfold ratTrunc
  rw [Rat.num_intCast, Rat.den_intCast]
  simp

theorem pyStrOfInt_data_nonneg {i : Int} (h : ¬i < 0) :
    (pyStrOfInt i).data = natDigits i.natAbs := by
  unfold pyStrOfInt
  rw [if_neg h]

theorem pyStrOfInt_data_neg {i : Int} (h : i < 0) :
    (pyStrOfInt i).data = '-' :: natDigits i.natAbs := by
  unfold pyStrOfInt
  rw [if_pos h]

theorem pyFloatOfString_strOfInt (i : Int) :
    pyFloatOfString (pyStrOfInt i) = some (.finite ((i : ℚ))) := by
  unfold pyFloatOfString
  by_cases hi : i < 0
  · rw [pyStrOfInt_data_neg hi]
    have hnws : ∀ c ∈ '-' :: natDigits i.natAbs, isPyWs c = false := by
      intro c hc
      rcases List.mem_cons.mp hc with rfl | hc
      · decide
      · exact (digitChars_props c (natDigits_mem c hc)).2.1
    rw [pyStripL_of_no_ws hnws,
      pyFloatCore_neg_digits (natDigits_ne_nil _) (fun c hc => natDigits_mem c hc),
      natDigits_val]
    have habs : ((i.natAbs : ℚ)) = -(i : ℚ) := by
      rw [Int.cast_natAbs, abs_of_nonpos (by omega : i ≤ 0), Int.cast_neg]
    rw [habs]
    simp
  · rw [pyStrOfInt_data_nonneg hi]
    have hnws : ∀ c ∈ natDigits i.natAbs, isPyWs c = false := fun c hc =>
      (digitChars_props c (natDigits_mem c hc)).2.1
    rw [pyStripL_of_no_ws hnws,
      pyFloatCore_digits (natDigits_ne_nil _) (fun c hc => natDigits_mem c hc),
      natDigits_val]
    have habs : ((i.natAbs : ℚ)) = (i : ℚ) := by
      rw [Int.cast_natAbs, abs_of_nonneg (by omega : 0 ≤ i)]
    rw [habs]

theorem pyStrOfInt_ne_empty (i : Int) : pyStrOfInt i ≠ "" := by
  intro hcon
  have h1 := congrArg String.data hcon
  by_cases hi : i < 0
  · rw [pyStrOfInt_data_neg hi] at h1
    simp at h1
  · rw [pyStrOfInt_data_nonneg hi] at h1
    exact natDigits_ne_nil _ h1

theorem pyLower_strOfInt_ne_nan (i : Int) : pyLower (pyStrOfInt i) ≠ "nan" := by
  intro hcon
  have h1 := congrArg String.data hcon
  have h2 : (pyStrOfInt i).data.map Char.toLower = "nan".data := h1
  by_cases hi : i < 0
  · rw [pyStrOfInt_data_neg hi] at h2
    have h3 := congrArg List.head? h2
    simp only [List.map_cons, List.head?_cons] at h3
    exact absurd (Option.some.inj h3) (by decide)
  · rw [pyStrOfInt_data_nonneg hi,
      map_toLower_digits (fun c hc => natDigits_mem c hc)] at h2
    rcases hd : natDigits i.natAbs with _ | ⟨c, t⟩
    · exact natDigits_ne_nil _ hd
    · rw [hd] at h2
      have h3 := congrArg List.head? h2
      simp only [List.head?_cons] at h3
      have hc := digitChars_props c (natDigits_mem c (by rw [hd]; simp))
      exact hc.2.2.2.2.2.2 (Option.some.inj h3)

theorem cleanUrn_strOfInt (i : Int) :
    cleanUrn (some (pyStrOfInt i)) = .ok (some (pyStrOfInt i)) := by
  simp only [cleanUrn]
  rw [if_neg (by
    rintro (h1 | h1)
    · exact pyStrOfInt_ne_empty i h1
    · exact pyLower_strOfInt_ne_nan i h1)]
  rw [pyFloatOfString_strOfInt]
  simp only [pyIntOfFloat, ratTrunc_intCast]

/-! ## Helper lemmas: the merge -/

theorem except_bind_ok {ε α β : Type} {x : Except ε α} {f : α → Except ε β} {b : β}
    (h : (x >>= f) = .ok b) : ∃ a, x = .ok a ∧ f a = .ok b := by
  cases x with
  | ok a => exact ⟨a, rfl, h⟩
  | error e => simp [Bind.bind, Except.bind] at h

theorem mergedRowToSchool_urn {m : MergedRow} {urn : String} {sch : School}
    (h : mergedRowToSchool m urn = .ok sch) : sch.urn = urn := by
  unfold mergedRowToSchool at h
  obtain ⟨pc, hpc, h⟩ := except_bind_ok h
  obtain ⟨sd, hsd, h⟩ := except_bind_ok h
  simp only [pure, Except.pure, Except.ok.injEq] at h
  subst h
  rfl

theorem constructSchool_urn {g f s : Table} {urn : String} {sch : School}
    (h : constructSchool g f s urn = .ok sch) : sch.urn = urn :=
  mergedRowToSchool_urn h

theorem filterMap_construct_urns (g f s : Table) (L : List String) :
    (L.filterMap (fun u => (constructSchool g f s u).toOption)).map (fun sch => sch.urn) =
      L.filter (fun u => (constructSchool g f s u).toOption.isSome) := by
  induction L with
  | nil => rfl
  | cons u t ih =>
    rw [List.filterMap_cons, List.filter_cons]
    cases hc : (constructSchool g f s u).toOption with
    | none => simpa using ih
    | some sch =>
      have hok : constructSchool g f s u = .ok sch := by
        cases hcs : constructSchool g f s u with
        | ok a =>
          rw [hcs] at hc
          simp only [Except.toOption, Option.some.injEq] at hc
          rw [hc]
        | error e =>
          rw [hcs] at hc
          simp [Except.toOption] at hc
      simp [constructSchool_urn hok, ih]

/-! ## Helper lemmas: pattern extraction -/

theorem broadDedupGo_nodup (text : String) :
    ∀ (ms : List ReMatch) (seen : List String),
      ((broadDedupGo text ms seen).map improvementKey).Nodup ∧
        ∀ k ∈ (broadDedupGo text ms seen).map improvementKey, k ∉ seen := by
  intro ms
  induction ms with
  | nil =>
    intro seen
    have h0 : broadDedupGo text [] seen = [] := rfl
    rw [h0]
    exact ⟨List.nodup_nil, by intro k hk; simp at hk⟩
  | cons m rest ih =>
    intro seen
    simp only [broadDedupGo]
    by_cases hk : (categorizeImprovement m.group0 ++ ":" ++ m.group0.take 30) ∈ seen
    · rw [if_pos hk]
      exact ih seen
    · rw [if_neg hk]
      obtain ⟨ih1, ih2⟩ := ih ((categorizeImprovement m.group0 ++ ":" ++ m.group0.take 30) :: seen)
      constructor
      · rw [List.map_cons, List.nodup_cons]
        simp only [improvementKey]
        exact ⟨fun hmem => ih2 _ hmem (List.mem_cons_self _ _), ih1⟩
      · intro k hk2
        rw [List.map_cons, List.mem_cons] at hk2
        simp only [improvementKey] at hk2
        intro hks
        cases hk2 with
        | inl hkeq => exact hk (hkeq ▸ hks)
        | inr hk2 => exact ih2 k hk2 (List.mem_cons_of_mem _ hks)

theorem extractSubjectIssues_shape {finditer : String → String → List ReMatch}
    {setOrder : List String → List String} {text : String}
    (hso : ∀ l : List String, (setOrder l).Nodup) :
    ∀ p ∈ extractSubjectIssues finditer setOrder text, p.2.Nodup ∧ p.2.length ≤ 3 := by
  intro p hp
  unfold extractSubjectIssues at hp
  rw [List.mem_filterMap] at hp
  obtain ⟨subj, _, hmk⟩ := hp
  by_cases he : (subj.2.flatMap (fun kw =>
      (subjectPatterns kw).flatMap (fun pat =>
        (finditer pat text).filterMap (fun m =>
          let context := getSentenceContext text m.start
          if context ≠ "" ∧ 20 < context.length then some context else none)))).isEmpty
  · rw [if_pos he] at hmk
    exact absurd hmk (by simp)
  · rw [if_neg he] at hmk
    have hp2 : p.2 = (setOrder (subj.2.flatMap (fun kw =>
        (subjectPatterns kw).flatMap (fun pat =>
          (finditer pat text).filterMap (fun m =>
            let context := getSentenceContext text m.start
            if context ≠ "" ∧ 20 < context.length then some context else none))))).take 3 := by
      have := Option.some.inj hmk
      rw [← this]
    rw [hp2]
    constructor
    · exact (hso _).sublist (List.take_sublist _ _)
    · rw [List.length_take]
      omega

/-! ## The claims -/

/-- C3: `FinancialData.get_priority_level` is a pure step function of
`total_teaching_support_costs` with thresholds 200000 and 500000: a null
cost gives UNKNOWN, any finite cost is classified exactly by the spec's step
function, and in particular 499999 ↦ MEDIUM, 500000 ↦ HIGH, 0 ↦ LOW,
null ↦ UNKNOWN. -/
theorem financial_priority_step_function :
    (∀ fd : FinancialData, fd.total_teaching_support_costs = none →
        fd.getPriorityLevel = "UNKNOWN") ∧
    (∀ (fd : FinancialData) (q : ℚ),
        fd.total_teaching_support_costs = some (.finite q) →
        fd.getPriorityLevel = specPriorityLevel (some q)) ∧
    ({ total_teaching_support_costs := some (.finite 499999) } :
        FinancialData).getPriorityLevel = "MEDIUM" ∧
    ({ total_teaching_support_costs := some (.finite 500000) } :
        FinancialData).getPriorityLevel = "HIGH" ∧
    ({ total_teaching_support_costs := some (.finite 0) } :
        FinancialData).getPriorityLevel = "LOW" ∧
    ({ total_teaching_support_costs := none } : FinancialData).getPriorityLevel = "UNKNOWN" := by
  refine ⟨?_, ?_, by decide, by decide, by decide, rfl⟩
  · intro fd h
    simp [FinancialData.getPriorityLevel, h]
  · intro fd q h
    simp only [FinancialData.getPriorityLevel, h, specPriorityLevel, pyGeF]
    rcases le_or_lt 500000 q with h5 | h5
    · rw [if_pos (by exact decide_eq_true h5), if_pos h5]
    · rw [if_neg (by simpa using not_le.mpr h5), if_neg (not_le.mpr h5)]
      rcases le_or_lt 200000 q with h2 | h2
      · rw [if_pos (by exact decide_eq_true h2), if_pos h2]
      · rw [if_neg (by simpa using not_le.mpr h2), if_neg (not_le.mpr h2)]

/-- C3 witness: the step function evaluated at a null and at a mid-band
concrete cost through the theorem. -/
theorem financial_priority_step_function_witness :
    ({ total_teaching_support_costs := none } : FinancialData).getPriorityLevel = "UNKNOWN" ∧
    ({ total_teaching_support_costs := some (.finite 250000) } :
        FinancialData).getPriorityLevel = specPriorityLevel (some 250000) :=
  ⟨financial_priority_step_function.1 _ rfl,
   financial_priority_step_function.2.1 _ 250000 rfl⟩

/-- C4: `SENDData.get_send_priority_score` equals the spec's fixed weighted
sum 50·[sen unit] + 50·[resourced provision] + 3·ehc + 1·sen support +
2·ehc_asd + 2·ehc_semh with null counts as 0; in particular a bare SEN unit
scores 50 and ten EHC plans alone score 30. -/
theorem send_priority_score_formula :
    (∀ sd : SENDData,
        sd.getSendPriorityScore =
          specSendScore sd.has_sen_unit sd.has_resourced_provision (sd.ehc_plan.getD 0)
            (sd.sen_support.getD 0) (sd.ehc_asd.getD 0) (sd.ehc_semh.getD 0)) ∧
    ({ has_sen_unit := true, ehc_plan := some 0, sen_support := some 0 } :
        SENDData).getSendPriorityScore = 50 ∧
    ({ has_sen_unit := false, has_resourced_provision := false, ehc_plan := some 10,
       sen_support := some 0, ehc_asd := some 0, ehc_semh := some 0 } :
        SENDData).getSendPriorityScore = 30 := by
  refine ⟨?_, by decide, by decide⟩
  intro sd
  simp only [SENDData.getSendPriorityScore, specSendScore]
  cases sd.has_sen_unit <;> cases sd.has_resourced_provision <;> simp <;> ring

/-- C6 (code bug in `_safe_int`): the coercers are meant to be total, but
`int(float("inf"))` raises `OverflowError`, which the
`except (ValueError, TypeError)` clause does not catch; `_safe_float` on the
same input returns the infinite float without raising, and an ordinary
fractional string is truncated, not defaulted to 0. -/
theorem safe_int_overflow_bug :
    pySafeInt (some "inf") = .error .overflowError ∧
    pySafeInt (some "Infinity") = .error .overflowError ∧
    pySafeFloat (some "inf") = some (.inf false) ∧
    pySafeInt (some "12.7") = .ok (some 12) ∧
    pySafeInt (some "twelve") = .ok none := by
  refine ⟨by decide, by decide, by decide, ?_, by decide⟩
  decide

/-- C10 (implicit): `School.get_combined_priority` never returns UNKNOWN —
its value is always HIGH, MEDIUM or LOW — and a school with neither
financial nor SEND data (both sub-priorities UNKNOWN) is reported LOW. -/
theorem combined_priority_never_unknown :
    (∀ s : School,
        s.getCombinedPriority = "HIGH" ∨ s.getCombinedPriority = "MEDIUM" ∨
          s.getCombinedPriority = "LOW") ∧
    (∀ s : School, s.financial = none → s.send = none →
        s.getSalesPriority = "UNKNOWN" ∧ s.getSendPriority = "UNKNOWN" ∧
          s.getCombinedPriority = "LOW") := by
  constructor
  · intro s
    simp only [School.getCombinedPriority]
    split_ifs <;> simp
  · intro s h1 h2
    have hs1 : s.getSalesPriority = "UNKNOWN" := by
      unfold School.getSalesPriority
      rw [h1]
    have hs2 : s.getSendPriority = "UNKNOWN" := by
      unfold School.getSendPriority
      rw [h2]
    refine ⟨hs1, hs2, ?_⟩
    simp [School.getCombinedPriority, hs1, hs2]

/-- C10 witness: the no-data `sampleSchool` is LOW, via the theorem. -/
theorem combined_priority_never_unknown_witness :
    sampleSchool.getSalesPriority = "UNKNOWN" ∧ sampleSchool.getSendPriority = "UNKNOWN" ∧
      sampleSchool.getCombinedPriority = "LOW" :=
  combined_priority_never_unknown.2 sampleSchool rfl rfl

/-- C1 counterexample: with the column `school_name` carrying "100" in the
financial row and "200" in the GIAS (directory) row for the same URN, the
merged record `{**fin, **gias}` carries the directory value "200" — and so
does the School built from it — not the financial value "100" that the
claim predicts. -/
theorem merge_field_precedence_counterexample :
    (MergedRow.get
        { finPart := [("school_name", "100")], giasPart := [("school_name", "200")],
          fin := some [("school_name", "100")], send := none } "school_name" = some "200") ∧
    ((constructSchool [("1", [("school_name", "200")])] [("1", [("school_name", "100")])]
          [] "1").toOption.map (fun sch => sch.school_name) = some "200") := by
  refine ⟨by decide, by decide⟩

/-- C1 amended: in the merged record the directory (GIAS) value wins for a
column present in both sources (the financial value survives only where no
GIAS binding exists); the financial-source value nevertheless wins for the
School's financial fields, which are read from the separately attached
financial row — TotalExpenditure 100 (financial) against 200 (directory)
yields 100 in `School.financial`. -/
theorem merge_field_precedence_amended :
    (∀ (m : MergedRow) (k v : String), rowGet m.giasPart k = some v → m.get k = some v) ∧
    (∀ (m : MergedRow) (k v : String),
        rowGet m.giasPart k = none → rowGet m.finPart k = some v → m.get k = some v) ∧
    ((constructSchool [("1", [("TotalExpenditure", "200")])]
          [("1", [("TotalExpenditure", "100")])] [] "1").toOption.map
        (fun sch => sch.financial.map (fun fd => fd.total_expenditure)) =
      some (some (some (.finite 100)))) := by
  refine ⟨?_, ?_, by decide⟩
  · intro m k v h
    unfold MergedRow.get
    rw [h]
  · intro m k v h1 h2
    unfold MergedRow.get
    rw [h1, h2]

/-- C1 witness: both precedence conjuncts at one-column rows, through the
theorem. -/
theorem merge_field_precedence_amended_witness :
    (MergedRow.get { finPart := [("f", "1")], giasPart := [("f", "2")], fin := none, send := none }
        "f" = some "2") ∧
    (MergedRow.get { finPart := [("g", "1")], giasPart := [], fin := none, send := none }
        "g" = some "1") :=
  ⟨merge_field_precedence_amended.1 _ "f" "2" rfl,
   merge_field_precedence_amended.2.1 _ "g" "1" rfl rfl⟩

/-- C5 counterexample: `_clean_urn` is not idempotent — on the single-space
string it returns the empty string (Python `float(" ")` raises, and the
fallback strips " " to ""), while a second application maps "" to `None`. -/
theorem clean_urn_idempotence_counterexample :
    cleanUrn (some " ") = .ok (some "") ∧
    cleanUrn (some "") = .ok none ∧
    (cleanUrn (some " ") >>= cleanUrn) ≠ cleanUrn (some " ") := by
  refine ⟨by decide, by decide, by decide⟩

/-- C5 amended: `_clean_urn` returns null for null input, the empty string
and "nan" in any capitalization, and `clean(clean x) = clean x` holds for
every input whose cleaning succeeds and does not produce the empty string or
a case-variant of "nan" (the counterexample inputs); an infinite input makes
the first application raise instead. -/
theorem clean_urn_idempotent_amended :
    (cleanUrn none = .ok none) ∧
    (∀ s : String, s = "" ∨ pyLower s = "nan" → cleanUrn (some s) = .ok none) ∧
    (∀ (x y : Option String), cleanUrn x = .ok y →
        (y = none ∨ ∃ t, y = some t ∧ t ≠ "" ∧ pyLower t ≠ "nan") →
        cleanUrn y = .ok y) := by
  refine ⟨rfl, ?_, ?_⟩
  · intro s hs
    simp only [cleanUrn, if_pos hs]
  · intro x y hxy hy
    rcases hy with rfl | ⟨t, rfl, ht1, ht2⟩
    · rfl
    · cases x with
      | none => exact absurd (Except.ok.inj hxy) (by simp)
      | some s =>
        simp only [cleanUrn] at hxy
        by_cases hs : s = "" ∨ pyLower s = "nan"
        · rw [if_pos hs] at hxy
          exact absurd (Except.ok.inj hxy) (by simp)
        · rw [if_neg hs] at hxy
          cases hf : pyFloatOfString s with
          | none =>
            rw [hf] at hxy
            have hts : t = pyStrip s := by
              have := Except.ok.inj hxy
              exact (Option.some.inj this).symm
            subst hts
            simp only [cleanUrn]
            rw [if_neg (by
              rintro (hc | hc)
              · exact ht1 hc
              · exact ht2 hc)]
            have hparse : pyFloatOfString (pyStrip s) = none := by
              show pyFloatCore (pyStripL (pyStripL s.data)) = none
              rw [pyStripL_idem]
              exact hf
            rw [hparse, pyStrip_idem]
          | some f =>
            rw [hf] at hxy
            cases f with
            | finite q =>
              simp only [pyIntOfFloat] at hxy
              have hts : t = pyStrOfInt (ratTrunc q) := by
                have := Except.ok.inj hxy
                exact (Option.some.inj this).symm
              subst hts
              exact cleanUrn_strOfInt (ratTrunc q)
            | inf b =>
              simp only [pyIntOfFloat] at hxy
              exact absurd hxy (by simp)
            | nan =>
              simp only [pyIntOfFloat] at hxy
              have hts : t = pyStrip s := by
                have := Except.ok.inj hxy
                exact (Option.some.inj this).symm
              subst hts
              simp only [cleanUrn]
              rw [if_neg (by
                rintro (hc | hc)
                · exact ht1 hc
                · exact ht2 hc)]
              have hparse : pyFloatOfString (pyStrip s) = some .nan := by
                show pyFloatCore (pyStripL (pyStripL s.data)) = some .nan
                rw [pyStripL_idem]
                exact hf
              rw [hparse]
              simp only [pyIntOfFloat, pyStrip_idem]

/-- C5 witness: a numeric URN with surrounding whitespace cleans to "42",
and cleaning "42" again is the identity, through the theorem. -/
theorem clean_urn_idempotent_amended_witness :
    cleanUrn (some "42") = .ok (some "42") :=
  clean_urn_idempotent_amended.2.2 (some " 42 ") (some "42") (by decide)
    (Or.inr ⟨"42", rfl, by decide, by decide⟩)

/-- C7 counterexample: a one-school shortlist with zero generated starters
exports a workbook with only the "School Summary" sheet — the
"Conversation Starters" sheet is absent, not present-but-empty. -/
theorem export_starters_sheet_counterexample :
    [sampleSchool].length = 1 ∧ sampleSchool.conversation_starters = [] ∧
    (exportShortlistToExcel [sampleSchool]).map Prod.fst = ["School Summary"] ∧
    "Conversation Starters" ∉ (exportShortlistToExcel [sampleSchool]).map Prod.fst := by
  refine ⟨rfl, rfl, by decide, by decide⟩

/-- C7 amended: the summary sheet is always written; the starters sheet is
written iff at least one shortlisted school carries a generated starter, so
a shortlist with zero starters produces a workbook whose only sheet is the
summary. -/
theorem export_sheets_amended :
    ∀ schools : List School,
      (exportShortlistToExcel schools).map Prod.fst =
        (if (schools.flatMap
              (fun sch => sch.conversation_starters.map (starterRowOf sch))).isEmpty
         then ["School Summary"]
         else ["School Summary", "Conversation Starters"]) := by
  intro schools
  unfold exportShortlistToExcel
  cases h : (schools.flatMap
      (fun sch => sch.conversation_starters.map (starterRowOf sch))).isEmpty <;>
    simp [h]

/-- Helper for C8: when every query returns status 200 with no organic
results and the direct fallback finds nothing, the query loop yields
nothing. -/
theorem queryLoop_none {env : SearchEnv}
    (hcall : ∀ q, env.serperCall q = .ok (200, []))
    (hdirect : env.tryDirect = none) :
    ∀ qs : List String, queryLoop env qs = none := by
  intro qs
  induction qs with
  | nil => exact hdirect
  | cons q rest ih =>
    simp only [queryLoop, hcall q]
    simpa [scanLinks] using ih

/-- C8: when document discovery fails completely (the keyed search returns
no usable results for every query and the fallback scrape returns nothing),
`analyze` returns a result whose ofsted/report fields are all null, whose
single error field is the non-empty string "Could not find Ofsted report",
and it does not raise. -/
theorem analyze_discovery_failure :
    ∀ (env : OfstedEnv) (school_name : String),
      (∀ q, env.search.serperCall q = .ok (200, [])) →
      env.search.tryDirect = none →
      findOfstedReportUrl env.search school_name = none ∧
      analyzeOfsted env school_name =
        { rating := none, inspection_date := none, report_url := none, improvements := [],
          conversation_starters := [], pdf_extracted := false, subject_improvements := none,
          priority_order := none, error := some "Could not find Ofsted report" } ∧
      "Could not find Ofsted report" ≠ "" := by
  intro env name hcall hdirect
  have hf : findOfstedReportUrl env.search name = none := by
    unfold findOfstedReportUrl
    cases hk : env.search.serperKey with
    | none => exact hdirect
    | some k => exact queryLoop_none hcall hdirect _
  refine ⟨hf, ?_, by decide⟩
  unfold analyzeOfsted
  rw [hf]
  rfl

/-- C8 witness: the empty-results world `sampleOfstedEnv`, through the
theorem. -/
theorem analyze_discovery_failure_witness :
    analyzeOfsted sampleOfstedEnv "Test School" =
      { rating := none, inspection_date := none, report_url := none, improvements := [],
        conversation_starters := [], pdf_extracted := false, subject_improvements := none,
        priority_order := none, error := some "Could not find Ofsted report" } :=
  (analyze_discovery_failure sampleOfstedEnv "Test School" (fun _ => rfl) rfl).2.1

/-- C9: the broad-improvement extractor emits at most one entry per
`category:match[:30]` dedup key for any regex-match stream (so a duplicated
sentence cannot produce two entries), and the subject-issue extractor
returns, for every subject, a deduplicated issue list capped at 3, for any
enumeration order of Python's `set`. -/
theorem pattern_extraction_dedup :
    (∀ (finditer : String → String → List ReMatch) (text : String),
        ((extractBroadImprovements finditer text).map improvementKey).Nodup) ∧
    (∀ (finditer : String → String → List ReMatch)
        (setOrder : List String → List String) (text : String),
        (∀ l : List String, (setOrder l).Nodup) →
        ∀ p ∈ extractSubjectIssues finditer setOrder text,
          p.2.Nodup ∧ p.2.length ≤ 3) := by
  constructor
  · intro fi text
    exact (broadDedupGo_nodup text _ []).1
  · intro fi so text hso
    exact extractSubjectIssues_shape hso

/-- C9 witness: on a one-sentence report with an all-pattern matcher and
`List.dedup` as the set-enumeration order, through the theorem. -/
theorem pattern_extraction_dedup_witness :
    ((extractBroadImprovements sampleMatcher sampleText).map improvementKey).Nodup ∧
    (("mathematics", [sampleText]).2.Nodup ∧ ("mathematics", [sampleText]).2.length ≤ 3) :=
  ⟨pattern_extraction_dedup.1 sampleMatcher sampleText,
   pattern_extraction_dedup.2 sampleMatcher List.dedup sampleText
     (fun l => List.nodup_dedup l) ("mathematics", [sampleText]) (by decide)⟩

/-- C2 counterexample: a single GIAS row whose `pupil_count` is "inf" makes
`_merged_row_to_school` raise the uncaught overflow, so the row is dropped:
the merge yields 0 schools although the identifier union has size 1. -/
theorem merge_count_counterexample :
    loadAndMerge giasInfRow [] [] = [] ∧ (pyUnionUrns giasInfRow []).length = 1 := by
  refine ⟨by decide, by decide⟩

/-- C2 amended: merged identifiers are pairwise distinct, every merged
School's identifier comes from the GIAS ∪ financial key union (never from a
SEND-only identifier), the school count is at most the union size, and it
equals the union size exactly when every row's School construction succeeds
(a raising row — e.g. an "inf" count — is dropped).  `refresh()` re-runs
this same pure computation. -/
theorem merge_identifier_invariants :
    ∀ gias fin send : Table,
      ((loadAndMerge gias fin send).map (fun sch => sch.urn)).Nodup ∧
      (∀ u ∈ (loadAndMerge gias fin send).map (fun sch => sch.urn),
          u ∈ tableKeys gias ∨ u ∈ tableKeys fin) ∧
      (loadAndMerge gias fin send).length ≤ (pyUnionUrns gias fin).length ∧
      ((∀ u ∈ pyUnionUrns gias fin, (constructSchool gias fin send u).toOption.isSome) →
          (loadAndMerge gias fin send).length = (pyUnionUrns gias fin).length) := by
  intro gias fin send
  have hkey := filterMap_construct_urns gias fin send (pyUnionUrns gias fin)
  have hload : loadAndMerge gias fin send =
      (pyUnionUrns gias fin).filterMap
        (fun u => (constructSchool gias fin send u).toOption) := rfl
  refine ⟨?_, ?_, ?_, ?_⟩
  · rw [hload, hkey]
    exact (List.nodup_dedup _).filter _
  · intro u hu
    rw [hload, hkey] at hu
    have := List.mem_of_mem_filter hu
    unfold pyUnionUrns at this
    rw [List.mem_dedup, List.mem_append] at this
    exact this
  · have hlen : (loadAndMerge gias fin send).length =
        ((loadAndMerge gias fin send).map (fun sch => sch.urn)).length :=
      (List.length_map _ _).symm
    rw [hlen, hload, hkey]
    exact List.length_filter_le _ _
  · intro hall
    have hfilter : (pyUnionUrns gias fin).filter
        (fun u => (constructSchool gias fin send u).toOption.isSome) =
          pyUnionUrns gias fin :=
      List.filter_eq_self.mpr hall
    have hlen : (loadAndMerge gias fin send).length =
        ((loadAndMerge gias fin send).map (fun sch => sch.urn)).length :=
      (List.length_map _ _).symm
    rw [hlen, hload, hkey, hfilter]

/-- C2 witness: a GIAS row and a financial row under distinct URNs, through
the theorem — membership of a merged identifier and the exact union count. -/
theorem merge_identifier_invariants_witness :
    ("1" ∈ tableKeys sampleGias ∨ "1" ∈ tableKeys sampleFin) ∧
    (loadAndMerge sampleGias sampleFin []).length = (pyUnionUrns sampleGias sampleFin).length :=
  ⟨(merge_identifier_invariants sampleGias sampleFin []).2.1 "1" (by decide),
   (merge_identifier_invariants sampleGias sampleFin []).2.2.2 (by decide)⟩

end PropTech
